import Mathlib

/-!
Shallow embedding of the express-api-generator repository: the API-key
auth gate (src/middleware/validate_api_key.js), the scope gate
(src/middleware/scope_validation.js), the key-store lookup configured in
src/index.js, the CRUD route handlers and deny-list of src/routes.js,
the db-module key lookup (getApiKey in src/db.js), and the key-issuance
handler (generateAPIKey in src/index.js).  JavaScript-specific behaviour
(string truthiness, the logical-or coalescing of result fields, parseInt,
regex-based scope splitting, the uuid package's validator) is modelled
explicitly so the theorems can be checked against the source line by line.
-/

namespace ExpressApiGen

/-- JavaScript truthiness of an optional string value: `undefined` and the
empty string are falsy, every other string is truthy.  Mirrors the guards
`if (!apiKey)`, `if (where)`, `if (order)`, ... in the source. -/
def jsTruthyStr : Option String → Bool
  | none => false
  | some s => s ≠ ""

/-- Decimal value of a digit character (used by the parseInt model). -/
def digitVal (c : Char) : Nat := c.toNat - '0'.toNat

/-- Model of JavaScript parseInt(s, 10): skip leading whitespace, accept an
optional sign, read leading decimal digits; `none` stands for NaN. -/
def jsParseInt (s : String) : Option Int :=
  let cs := s.data.dropWhile (fun c => c == ' ' || c == '\t' || c == '\n' || c == '\r')
  let signed : Int × List Char :=
    match cs with
    | '-' :: rest => (-1, rest)
    | '+' :: rest => (1, rest)
    | _ => (1, cs)
  let ds := signed.2.takeWhile (fun c => decide ('0' ≤ c ∧ c ≤ '9'))
  if ds.isEmpty then none
  else some (signed.1 * (ds.foldl (fun acc c => acc * 10 + digitVal c) 0 : Nat))

/-- A JavaScript value as it appears inside a bound-parameter list:
a string, a number, NaN, or undefined. -/
inductive JsVal where
  | str (s : String)
  | num (n : Int)
  | nan
  | undef
deriving DecidableEq, Repr

/-- Lift a parseInt outcome into a bound-parameter value (NaN for `none`). -/
def toJsNum : Option Int → JsVal
  | some n => .num n
  | none => .nan

/-- JavaScript `a || b` on values that are either a number or undefined:
`undefined` and `0` are falsy.  Mirrors `result.changes || result.affectedRows`
in the PUT/DELETE handlers of src/routes.js. -/
def jsOr : Option Int → Option Int → Option Int
  | some v, b => if v = 0 then b else some v
  | none, b => b

/-- Delimiter class of the scope-splitting regex in
src/middleware/scope_validation.js: the five characters of the character
class (comma, semicolon, space, period, pipe). -/
def isScopeDelim (c : Char) : Bool :=
  c == ',' || c == ';' || c == ' ' || c == '.' || c == '|'

/-- Worker for the JS `String.prototype.split` on the regex of maximal
delimiter runs: accumulates the current token (reversed); a delimiter cuts
the token unless the previous character already was a delimiter (`inRun`),
so a run of delimiters makes a single cut. -/
def splitDelimsAux : List Char → List Char → Bool → List String
  | [], acc, _ => [String.mk acc.reverse]
  | c :: cs, acc, inRun =>
    if isScopeDelim c then
      if inRun then splitDelimsAux cs acc true
      else String.mk acc.reverse :: splitDelimsAux cs [] true
    else
      splitDelimsAux cs (c :: acc) false

/-- Model of `String(keyData.scopes).split(/[,; .|]+/)` from
src/middleware/scope_validation.js: split on maximal runs of the five
delimiter characters, keeping the leading/trailing empty pieces JavaScript
produces. -/
def splitDelims (s : String) : List String := splitDelimsAux s.data [] false

/-- A row of the api_keys table in the key store created by src/index.js:
api_key (unique), scopes, active. -/
structure ApiKeyRecord where
  api_key : String
  scopes : String
  active : Bool
deriving DecidableEq, Repr

/-- Outcome of the auth-gate middleware: an error response with an HTTP
status, or proceeding with the record attached to the request context
(`req.apiKeyData = apiKeyData; next()`). -/
inductive GateResult where
  | reject (status : Nat) (error : String)
  | proceed (record : ApiKeyRecord)
deriving DecidableEq, Repr

/-- The key-store lookup configured by src/index.js: every variant
(app-owned SQLite, user MySQL, user SQLite) runs
SELECT ... FROM api_keys WHERE api_key = ? AND active = 1, i.e. it returns
the first row whose api_key equals the argument and whose active flag is
set, and no row otherwise. -/
def findActiveKey (store : List ApiKeyRecord) (k : String) : Option ApiKeyRecord :=
  store.find? (fun r => r.api_key == k && r.active)

/-- An external store mutation that clears the active flag of every row
holding the given key (the deactivation the spec discusses; the shipped
system itself has no revocation endpoint). -/
def deactivateKey (store : List ApiKeyRecord) (k : String) : List ApiKeyRecord :=
  store.map (fun r => if r.api_key == k then { r with active := false } else r)

/-- The auth-gate middleware of src/middleware/validate_api_key.js.
`header` is `req.header('x-api-key')`; `lookup` is the awaited result of the
configured key-store fetcher (`.error` when the promise rejects).  The
middleware: falsy header → 401; fetcher rejection → 500; no row → 403;
otherwise the row's comma-split scopes must contain every required scope
(the routes always pass `[]` here) and the record is attached. -/
def validateApiKey (requiredScopes : List String) (header : Option String)
    (lookup : Except String (Option ApiKeyRecord)) : GateResult :=
  if jsTruthyStr header = false then
    .reject 401 "API key is missing"
  else
    match lookup with
    | .error _ => .reject 500 "API key validation failed"
    | .ok none => .reject 403 "Invalid or inactive API key"
    | .ok (some apiKeyData) =>
      let userScopes := apiKeyData.scopes.splitOn ","
      if requiredScopes.all (fun scope => userScopes.contains scope) then
        .proceed apiKeyData
      else
        .reject 403 "Insufficient permissions"

/-- A row returned by the db-module key lookup (getApiKey in src/db.js
selects the columns api_key and scopes). -/
structure KeyRow where
  api_key : String
  scopes : String
deriving DecidableEq, Repr

/-- Outcome of the scope-gate middleware: an error response or proceeding
with the token list attached (`req.apiKeyScope = scopes; next()`). -/
inductive ScopeOutcome where
  | reject (status : Nat) (message : String)
  | proceed (attachedScopes : List String)
deriving DecidableEq, Repr

/-- The scope-gate middleware checkScope of
src/middleware/scope_validation.js.  `apiKey` is `req.headers['x-api-key']`;
`lookup` is the awaited `getApiKey(apiKey)` call against the main store
(`.error` when it throws, `.ok none` when it yields no row — in which case
`keyData.scopes` throws and the catch answers 401).  A resolved record's
scopes string is split on runs of the delimiter class; the request passes
when the required scope is a member or equals the sentinel "any". -/
def checkScope (requiredScope : String) (apiKey : Option String)
    (lookup : Except Unit (Option KeyRow)) : ScopeOutcome :=
  if jsTruthyStr apiKey = false then
    .reject 401 "API key is required"
  else
    match lookup with
    | .error _ => .reject 401 "Invalid API key"
    | .ok none => .reject 401 "Invalid API key"
    | .ok (some keyData) =>
      let scopes := splitDelims keyData.scopes
      if !(scopes.contains requiredScope) && requiredScope ≠ "any" then
        .reject 403 "Insufficient scope"
      else
        .proceed scopes

/-- Hex-digit class of the uuid package's validation regex with its /i flag:
0-9, a-f, A-F. -/
def isHexDigit (c : Char) : Bool :=
  (decide ('0' ≤ c) && decide (c ≤ '9'))
    || (decide ('a' ≤ c) && decide (c ≤ 'f'))
    || (decide ('A' ≤ c) && decide (c ≤ 'F'))

/-- Character class the uuid package's validation regex imposes at
position i of a candidate string (hyphens at 8/13/18/23, version digit 1-5
at 14, variant digit 8/9/a/b case-insensitively at 19, hex elsewhere). -/
def uuidCharClass (i : Nat) (c : Char) : Bool :=
  if i == 8 || i == 13 || i == 18 || i == 23 then c == '-'
  else if i == 14 then
    c == '1' || c == '2' || c == '3' || c == '4' || c == '5'
  else if i == 19 then
    c == '8' || c == '9' || c == 'a' || c == 'b' || c == 'A' || c == 'B'
  else isHexDigit c

/-- The nil UUID accepted by the second alternative of the uuid package's
validation regex. -/
def nilUUIDStr : String := "00000000-0000-0000-0000-000000000000"

/-- Model of `validate` from the npm uuid package (imported in
src/routes.js as isValidUUID): the anchored regex matches either a 36-char
string obeying uuidCharClass at every position or the nil UUID. -/
def uuidValidate (s : String) : Bool :=
  (s.data.length == 36
      && (List.range 36).all (fun i => uuidCharClass i (s.data.getD i ' ')))
    || (s == nilUUIDStr)

/-- Value of a single hex character under parseInt(c, 16); `none` is NaN. -/
def hexVal (c : Char) : Option Nat :=
  if decide ('0' ≤ c) && decide (c ≤ '9') then some (c.toNat - '0'.toNat)
  else if decide ('a' ≤ c) && decide (c ≤ 'f') then some (c.toNat - 'a'.toNat + 10)
  else if decide ('A' ≤ c) && decide (c ≤ 'F') then some (c.toNat - 'A'.toNat + 10)
  else none

/-- Model of `version` from the npm uuid package (imported in src/routes.js
as getUUIDVersion): parseInt(uuid.slice(14, 15), 16), the hex value of the
character at index 14. -/
def getUUIDVersion (s : String) : Option Nat := hexVal (s.data.getD 14 ' ')

/-- validateGUID of src/routes.js: accepted by the uuid package's validator
and of version 1 or 4. -/
def validateGUID (s : String) : Bool :=
  uuidValidate s && (getUUIDVersion s == some 1 || getUUIDVersion s == some 4)

/-- A SQL call handed to the storage connector: the query text and the
bound-parameter list. -/
structure SqlCall where
  sql : String
  params : List JsVal
deriving DecidableEq, Repr

/-- The deny-list of src/routes.js. -/
def disabledTables : List String := ["api_keys"]

/-- The collection-GET query construction of src/routes.js: start from
SELECT * FROM table, append the raw where text after WHERE and the raw
order text after ORDER BY when those query parameters are truthy, then a
parameterized LIMIT and OFFSET pushing the parseInt-ed values. -/
def buildCollectionQuery (table : String)
    (whereQ order limit offset : Option String) : SqlCall :=
  let query := "SELECT * FROM " ++ table
  let params : List JsVal := []
  let query := if jsTruthyStr whereQ then query ++ " WHERE " ++ whereQ.getD "" else query
  let query := if jsTruthyStr order then query ++ " ORDER BY " ++ order.getD "" else query
  let step :=
    if jsTruthyStr limit then
      (query ++ " LIMIT ?", params ++ [toJsNum (jsParseInt (limit.getD ""))])
    else (query, params)
  let step :=
    if jsTruthyStr offset then
      (step.1 ++ " OFFSET ?", step.2 ++ [toJsNum (jsParseInt (offset.getD ""))])
    else step
  ⟨step.1, step.2⟩

/-- The two physical backends the storage connector normalizes; the source
distinguishes them by probing for a `query` method. -/
inductive Backend where
  | mysql
  | sqlite
deriving DecidableEq, Repr

/-- The union of result fields a write call can come back with: `changes`
and `lastID` on the SQLite driver, `affectedRows` and `insertId` on the
MySQL driver; `none` is an absent (undefined) field. -/
structure RunResult where
  changes : Option Int
  affectedRows : Option Int
  lastID : Option Int
  insertId : Option Int
deriving DecidableEq, Repr

/-- A database row as an untyped column-to-value mapping. -/
def DbRow : Type := List (String × JsVal)

instance : DecidableEq DbRow := by
  unfold DbRow
  infer_instance

/-- The JSON body a route handler renders, with `none` marking a field that
is absent from the serialized object (JSON.stringify drops undefined
properties). -/
structure ApiResponse where
  status : Nat
  error : Option String
  message : Option String
  changes : Option Int
  idField : Option Int
deriving DecidableEq, Repr

/-- The deny-list rejection of src/routes.js (note the shipped 500). -/
def denyResponse : ApiResponse :=
  ⟨500, some "You do not have permission to access this resource!", none, none, none⟩

/-- The collection GET handler of src/routes.js: deny-list check, then the
built query is executed and the rows (or a wrapped failure) returned.  The
second component lists every call made to the storage connector. -/
def collectionGetHandler (db : SqlCall → Except String (List DbRow))
    (table : String) (whereQ order limit offset : Option String) :
    ApiResponse × List SqlCall :=
  if disabledTables.contains table then
    (denyResponse, [])
  else
    let q := buildCollectionQuery table whereQ order limit offset
    match db q with
    | .ok _rows => (⟨200, none, none, none, none⟩, [q])
    | .error _ => (⟨500, some "Database query failed", none, none, none⟩, [q])

/-- The POST handler of src/routes.js: deny-list check, parameterized
INSERT built from the body mapping in iteration order, backend-dependent
identifier field in the response. -/
def postHandler (backend : Backend) (db : SqlCall → Except String RunResult)
    (table : String) (data : List (String × JsVal)) :
    ApiResponse × List SqlCall :=
  if disabledTables.contains table then
    (denyResponse, [])
  else
    let columns := String.intercalate ", " (data.map Prod.fst)
    let placeholders := String.intercalate ", " (data.map (fun _ => "?"))
    let values := data.map Prod.snd
    let q : SqlCall :=
      ⟨"INSERT INTO " ++ table ++ " (" ++ columns ++ ") VALUES (" ++ placeholders ++ ")",
        values⟩
    match db q with
    | .ok result =>
      let newId := match backend with
        | .mysql => result.insertId
        | .sqlite => result.lastID
      (⟨200, none, some "Item inserted successfully", none, newId⟩, [q])
    | .error _ => (⟨500, some "Insert operation failed", none, none, none⟩, [q])

/-- The identifier resolution both single-row handlers of src/routes.js
inline: column guid for a v1/v4 UUID, column id otherwise. -/
def resolveFilterColumn (ident : String) : String :=
  if validateGUID ident then "guid" else "id"

/-- The PUT handler of src/routes.js.  `queryKeyParam` carries the `key`
query parameter of the request; the handler body never reads it.  Deny-list
check, SET clause from the body mapping, row matched on the resolved
column, response field changes = result.changes || result.affectedRows. -/
def putHandler (_backend : Backend) (db : SqlCall → Except String RunResult)
    (table ident : String) (data : List (String × JsVal))
    (_queryKeyParam : Option String) : ApiResponse × List SqlCall :=
  if disabledTables.contains table then
    (denyResponse, [])
  else
    let setClause := String.intercalate ", " (data.map (fun kv => kv.1 ++ " = ?"))
    let values := data.map Prod.snd ++ [JsVal.str ident]
    let key := resolveFilterColumn ident
    let q : SqlCall := ⟨"UPDATE " ++ table ++ " SET " ++ setClause ++ " WHERE " ++ key ++ " = ?", values⟩
    match db q with
    | .ok result =>
      (⟨200, none, some "Item updated successfully", jsOr result.changes result.affectedRows, none⟩, [q])
    | .error _ => (⟨500, some "Update operation failed", none, none, none⟩, [q])

/-- The DELETE handler of src/routes.js: deny-list check, row matched on
the resolved column, changes coalesced like PUT. -/
def deleteHandler (db : SqlCall → Except String RunResult)
    (table ident : String) (_queryKeyParam : Option String) :
    ApiResponse × List SqlCall :=
  if disabledTables.contains table then
    (denyResponse, [])
  else
    let key := resolveFilterColumn ident
    let q : SqlCall := ⟨"DELETE FROM " ++ table ++ " WHERE " ++ key ++ " = ?", [JsVal.str ident]⟩
    match db q with
    | .ok result =>
      (⟨200, none, some "Item deleted successfully", jsOr result.changes result.affectedRows, none⟩, [q])
    | .error _ => (⟨500, some "Delete operation failed", none, none, none⟩, [q])

/-- HTTP methods the generated router registers. -/
inductive Method where
  | get
  | post
  | put
  | delete
deriving DecidableEq, Repr

/-- One segment of an Express route pattern: a literal or a named
parameter. -/
inductive PathSeg where
  | lit (s : String)
  | param (s : String)
deriving DecidableEq, Repr

/-- One registration performed by generateRoutes in src/routes.js: method,
pattern, and the scope its checkScope middleware requires. -/
structure RouteSpec where
  method : Method
  pattern : List PathSeg
  requiredScope : String
deriving DecidableEq, Repr

/-- The route registrations of generateRoutes in src/routes.js, in source
order: two identical collection GETs, POST, PUT, DELETE.  The
generate-api-key registrations at the top of the function are commented
out in the source and therefore absent. -/
def routeTable : List RouteSpec :=
  [⟨.get, [.param "table"], "read"⟩,
   ⟨.get, [.param "table"], "read"⟩,
   ⟨.post, [.param "table"], "write"⟩,
   ⟨.put, [.param "table", .param "ident"], "write"⟩,
   ⟨.delete, [.param "table", .param "ident"], "delete"⟩]

/-- Whether one pattern segment accepts one path segment: a literal matches
itself, a named parameter matches any segment. -/
def segAccepts : PathSeg → String → Bool
  | .lit s, x => s == x
  | .param _, x => x ≠ ""

/-- Whether a whole pattern matches a path, segmentwise. -/
def patternAccepts (p : List PathSeg) (path : List String) : Bool :=
  p.length == path.length && (p.zip path).all (fun pr => segAccepts pr.1 pr.2)

/-- Express dispatch over the generated router: the first registered route
whose method and pattern match, if any (a miss falls through to the
application's 404 handling). -/
def dispatchRoute (m : Method) (path : List String) : Option RouteSpec :=
  routeTable.find? (fun r => r.method == m && patternAccepts r.pattern path)

/-- getApiKey of src/db.js, the lookup the scope gate performs against the
main data store: the key is spliced verbatim between double quotes into
the query text and the call carries no bound parameters. -/
def dbGetApiKeyCall (apiKey : String) : SqlCall :=
  ⟨"SELECT api_key, scopes FROM api_keys WHERE api_key = " ++ "\"" ++ apiKey ++ "\"", []⟩

/-- The key-store lookup the auth gate performs (every getApiKeyFunc
variant of src/index.js): parameterized query requiring active = 1. -/
def authGateLookupCall (apiKey : String) : SqlCall :=
  ⟨"SELECT * FROM api_keys WHERE api_key = ? AND active = 1", [JsVal.str apiKey]⟩

/-- The response of the key-issuance handler generateAPIKey in
src/index.js. -/
structure KeyGenResponse where
  status : Nat
  apiKey : String
  scope : String
deriving DecidableEq, Repr

/-- generateAPIKey of src/index.js: `newKey` stands for the generated
crypto.randomUUID(); the body's scope defaults to "read"; a parameterized
INSERT stores the pair and the handler answers 201 with the key and its
scope. -/
def generateAPIKey (newKey : String) (bodyScope : Option String) :
    KeyGenResponse × SqlCall :=
  let scope := bodyScope.getD "read"
  (⟨201, newKey, scope⟩,
    ⟨"INSERT INTO api_keys (api_key, scopes) VALUES (?, ?)",
      [JsVal.str newKey, JsVal.str scope]⟩)

/-- Character class the spec's words impose at position i of a canonical
36-character hyphenated hexadecimal UUID layout: hyphens at 8/13/18/23 and
hex digits everywhere else. -/
def layoutCharClass (i : Nat) (c : Char) : Bool :=
  if i == 8 || i == 13 || i == 18 || i == 23 then c == '-' else isHexDigit c

/-- The spec's words for the Identifier Resolver's first tier, syntax part:
the canonical 36-character hyphenated hexadecimal UUID layout. -/
def canonicalUUIDLayout (s : String) : Bool :=
  s.data.length == 36
    && (List.range 36).all (fun i => layoutCharClass i (s.data.getD i ' '))

/-- The spec's words for when the Identifier Resolver selects the GUID
path: canonical layout and version nibble 1 or 4. -/
def specSelectsGuidPath (s : String) : Bool :=
  canonicalUUIDLayout s
    && (s.data.getD 14 ' ' == '1' || s.data.getD 14 ' ' == '4')

/-- The RFC variant nibble constraint the uuid package's regex adds at
position 19: one of 8, 9, a, b, case-insensitively. -/
def variantNibbleOk (s : String) : Bool :=
  s.data.getD 19 ' ' == '8' || s.data.getD 19 ' ' == '9'
    || s.data.getD 19 ' ' == 'a' || s.data.getD 19 ' ' == 'b'
    || s.data.getD 19 ' ' == 'A' || s.data.getD 19 ' ' == 'B'

/-- The spec's words for the claimed single-row filter-column choice: guid
for a v1/v4 UUID, else the value of the key query parameter when present,
else id. -/
def specFilterColumn (ident : String) (queryKeyParam : Option String) : String :=
  if validateGUID ident then "guid"
  else
    match queryKeyParam with
    | some k => k
    | none => "id"

lemma findActiveKey_deactivateKey (store : List ApiKeyRecord) (k : String) :
    findActiveKey (deactivateKey store k) k = none := by
  induction store with
  | nil => rfl
  | cons r rest ih =>
    unfold findActiveKey deactivateKey at *
    by_cases h : r.api_key == k
    · simp only [List.map_cons, if_pos h]
      rw [List.find?_cons_of_neg]
      · exact ih
      · simp
    · simp only [List.map_cons, if_neg h]
      rw [List.find?_cons_of_neg]
      · exact ih
      · simp [h]

/-- Claim C1: the auth gate answers 401 when no key is supplied in the
x-api-key header (the source's guard treats an empty header value as
missing, so that boundary is stated explicitly); with a key supplied, the
fresh key-store lookup returns only rows that carry that key with
active = true, a miss — including the request immediately following a
deactivation — is answered 403, and a hit attaches the record and
proceeds. -/
theorem auth_gate_behaviour :
    (∀ lookup : Except String (Option ApiKeyRecord),
      validateApiKey [] none lookup = .reject 401 "API key is missing") ∧
    (∀ lookup : Except String (Option ApiKeyRecord),
      validateApiKey [] (some "") lookup = .reject 401 "API key is missing") ∧
    (∀ (store : List ApiKeyRecord) (k : String) (r : ApiKeyRecord),
      findActiveKey store k = some r → r.api_key = k ∧ r.active = true) ∧
    (∀ (store : List ApiKeyRecord) (k : String), k ≠ "" →
      findActiveKey store k = none →
      validateApiKey [] (some k) (.ok (findActiveKey store k))
        = .reject 403 "Invalid or inactive API key") ∧
    (∀ (store : List ApiKeyRecord) (k : String) (r : ApiKeyRecord), k ≠ "" →
      findActiveKey store k = some r →
      validateApiKey [] (some k) (.ok (findActiveKey store k)) = .proceed r) ∧
    (∀ (store : List ApiKeyRecord) (k : String), k ≠ "" →
      validateApiKey [] (some k)
          (.ok (findActiveKey (deactivateKey store k) k))
        = .reject 403 "Invalid or inactive API key") := by
  refine ⟨fun _ => rfl, fun _ => rfl, ?_, ?_, ?_, ?_⟩
  · intro store k r h
    have hp := List.find?_some h
    simp only [Bool.and_eq_true, beq_iff_eq] at hp
    exact hp
  · intro store k hk hfind
    simp [validateApiKey, jsTruthyStr, hk, hfind]
  · intro store k r hk hfind
    simp [validateApiKey, jsTruthyStr, hk, hfind]
  · intro store k hk
    rw [findActiveKey_deactivateKey store k]
    simp [validateApiKey, jsTruthyStr, hk]

/-- Witness for auth_gate_behaviour at a concrete store: the key "k1" is
supplied and its record was just deactivated, so the request is rejected
with 403. -/
theorem auth_gate_behaviour_witness :
    ("k1" : String) ≠ "" ∧
    validateApiKey [] (some "k1")
        (.ok (findActiveKey (deactivateKey [⟨"k1", "read", true⟩] "k1") "k1"))
      = .reject 403 "Invalid or inactive API key" :=
  ⟨by decide, auth_gate_behaviour.2.2.2.2.2 [⟨"k1", "read", true⟩] "k1" (by decide)⟩

/-- Claim C2: the scope gate splits the resolved record's scopes string on
runs of comma, semicolon, space, period and pipe (the five listed spellings
of read-write all tokenize to read and write); the sentinel required scope
"any" always proceeds once a record has resolved, whatever the token set;
otherwise membership of the required token decides between proceeding and
a 403 rejection. -/
theorem scope_gate_tokenizer_and_membership :
    (splitDelims "read,write" = ["read", "write"]
      ∧ splitDelims "read; write" = ["read", "write"]
      ∧ splitDelims "read write" = ["read", "write"]
      ∧ splitDelims "read.write" = ["read", "write"]
      ∧ splitDelims "read|write" = ["read", "write"]) ∧
    (∀ (hdr : String) (kd : KeyRow), hdr ≠ "" →
      checkScope "any" (some hdr) (.ok (some kd))
        = .proceed (splitDelims kd.scopes)) ∧
    (∀ (hdr : String) (kd : KeyRow) (req : String), hdr ≠ "" → req ≠ "any" →
      (splitDelims kd.scopes).contains req = false →
      checkScope req (some hdr) (.ok (some kd))
        = .reject 403 "Insufficient scope") ∧
    (∀ (hdr : String) (kd : KeyRow) (req : String), hdr ≠ "" →
      (splitDelims kd.scopes).contains req = true →
      checkScope req (some hdr) (.ok (some kd))
        = .proceed (splitDelims kd.scopes)) := by
  refine ⟨by decide, ?_, ?_, ?_⟩
  · intro hdr kd hh
    simp [checkScope, jsTruthyStr, hh]
  · intro hdr kd req hh hreq hmem
    have hm : req ∉ splitDelims kd.scopes := by simpa using hmem
    simp [checkScope, jsTruthyStr, hh, hreq, hm]
  · intro hdr kd req hh hmem
    have hm : req ∈ splitDelims kd.scopes := by simpa using hmem
    simp only [checkScope, jsTruthyStr]
    rw [if_neg (by simp [hh])]
    rw [if_neg (by simp [hm])]

/-- Witness for scope_gate_tokenizer_and_membership: a record with an
empty scopes string still proceeds under the required scope "any". -/
theorem scope_gate_tokenizer_and_membership_witness :
    ("k1" : String) ≠ "" ∧
    checkScope "any" (some "k1") (.ok (some ⟨"k1", ""⟩))
      = .proceed (splitDelims "") :=
  ⟨by decide, scope_gate_tokenizer_and_membership.2.1 "k1" ⟨"k1", ""⟩ (by decide)⟩

/-- Claim C9: the scope gate's own lookup against the main store splices
the caller's key verbatim between double quotes into the query text with
an empty bound-parameter list and no active filter, while the auth gate's
key-store lookup binds the key as a parameter and requires active = 1. -/
theorem scope_gate_lookup_query_text (k : String) :
    dbGetApiKeyCall k
        = ⟨"SELECT api_key, scopes FROM api_keys WHERE api_key = \"" ++ k ++ "\"",
            []⟩ ∧
    (dbGetApiKeyCall k).params = [] ∧
    authGateLookupCall k
        = ⟨"SELECT * FROM api_keys WHERE api_key = ? AND active = 1",
            [JsVal.str k]⟩ ∧
    (dbGetApiKeyCall "k1").sql
        = "SELECT api_key, scopes FROM api_keys WHERE api_key = \"k1\"" :=
  ⟨rfl, rfl, rfl, rfl⟩

/-- Claim C10: once a request passed the auth gate (a truthy key header),
a scope-gate lookup against the main store that throws or yields no row is
answered with status 401 and the message Invalid API key, never 403. -/
theorem scope_gate_miss_is_401 (requiredScope hdr : String)
    (lookup : Except Unit (Option KeyRow)) (hh : hdr ≠ "")
    (hl : lookup = .error () ∨ lookup = .ok none) :
    checkScope requiredScope (some hdr) lookup
      = .reject 401 "Invalid API key" := by
  rcases hl with rfl | rfl <;> simp [checkScope, jsTruthyStr, hh]

/-- Witness for scope_gate_miss_is_401: a key that resolves in the private
key store but has no row in the main store's api_keys table. -/
theorem scope_gate_miss_is_401_witness :
    ("k9" : String) ≠ "" ∧
    checkScope "read" (some "k9") (.ok none) = .reject 401 "Invalid API key" :=
  ⟨by decide, scope_gate_miss_is_401 "read" "k9" (.ok none) (by decide) (Or.inr rfl)⟩

/-- Counterexample to claim C3 as stated: the generated router has no
single-GET route at all (the second GET registration repeats the
collection pattern), so a single-GET request for the deny-listed table
matches no handler — it falls through unanswered instead of receiving the
claimed 500 error response. -/
theorem single_get_route_absent :
    dispatchRoute .get ["api_keys", "7"] = none ∧
    routeTable.filter
        (fun r => r.method == Method.get && r.pattern.length == 2) = [] := by
  constructor <;> rfl

/-- Claim C3 (amended: the router registers no single-GET handler, so the
guarantee covers the handlers that exist): for every handler the router
registers — the two collection GETs, POST, PUT and DELETE — a deny-listed
table name is answered with the 500 permission error before any SQL call,
with zero storage-connector calls; the deny-list is exactly api_keys. -/
theorem deny_list_short_circuits :
    disabledTables = ["api_keys"] ∧
    (∀ table, disabledTables.contains table = true →
      (∀ (db : SqlCall → Except String (List DbRow)) (w o l off : Option String),
        collectionGetHandler db table w o l off = (denyResponse, [])) ∧
      (∀ (backend : Backend) (db : SqlCall → Except String RunResult)
          (data : List (String × JsVal)),
        postHandler backend db table data = (denyResponse, [])) ∧
      (∀ (backend : Backend) (db : SqlCall → Except String RunResult)
          (ident : String) (data : List (String × JsVal)) (qk : Option String),
        putHandler backend db table ident data qk = (denyResponse, [])) ∧
      (∀ (db : SqlCall → Except String RunResult) (ident : String)
          (qk : Option String),
        deleteHandler db table ident qk = (denyResponse, []))) := by
  refine ⟨rfl, ?_⟩
  intro table h
  have hm : table ∈ disabledTables := by simpa using h
  refine ⟨?_, ?_, ?_, ?_⟩ <;> intros <;>
    simp [collectionGetHandler, postHandler, putHandler, deleteHandler, hm]

/-- Witness for deny_list_short_circuits at the deny-listed table
api_keys: the collection GET is rejected with the 500 permission payload
and performs no storage call. -/
theorem deny_list_short_circuits_witness :
    disabledTables.contains "api_keys" = true ∧
    collectionGetHandler (fun _ => .ok []) "api_keys" none none none none
      = (denyResponse, []) :=
  ⟨by decide,
    (deny_list_short_circuits.2 "api_keys" (by decide)).1 (fun _ => .ok []) none none none none⟩

/-- Counterexample to claim C5 as stated: for the non-UUID identifier 7
with the key query parameter set to email, the claimed filter column is
email, but the shipped PUT handler builds its query on the column id — the
handler never reads the key query parameter. -/
theorem key_query_param_ignored :
    specFilterColumn "7" (some "email") = "email" ∧
    (putHandler .sqlite (fun _ => .ok ⟨some 1, none, none, none⟩) "users" "7"
        [("name", JsVal.str "x")] (some "email")).2
      = [⟨"UPDATE users SET name = ? WHERE id = ?",
          [JsVal.str "x", JsVal.str "7"]⟩] ∧
    ("id" : String) ≠ "email" := by
  refine ⟨rfl, rfl, by decide⟩

/-- Claim C5 (amended: the shipped handlers ignore the key query
parameter, and there is no single-GET handler): for PUT and DELETE, when
the path identifier is not a v1/v4 UUID the row-filter column is always
id, whatever value the key query parameter carries — the handler output is
independent of it. -/
theorem filter_column_defaults_to_id
    (backend : Backend) (db : SqlCall → Except String RunResult)
    (table ident : String) (data : List (String × JsVal))
    (qk qk' : Option String)
    (hguid : validateGUID ident = false)
    (htable : disabledTables.contains table = false) :
    putHandler backend db table ident data qk
        = putHandler backend db table ident data qk' ∧
    (putHandler backend db table ident data qk).2
        = [⟨"UPDATE " ++ table ++ " SET "
              ++ String.intercalate ", " (data.map (fun kv => kv.1 ++ " = ?"))
              ++ " WHERE id = ?",
            data.map Prod.snd ++ [JsVal.str ident]⟩] ∧
    (deleteHandler db table ident qk).2
        = [⟨"DELETE FROM " ++ table ++ " WHERE id = ?", [JsVal.str ident]⟩] := by
  have hm : table ∉ disabledTables := by simpa using htable
  refine ⟨rfl, ?_, ?_⟩
  · unfold putHandler resolveFilterColumn
    rw [if_neg (by simp [hm]), hguid]
    simp only [Bool.false_eq_true, if_false]
    cases db ⟨"UPDATE " ++ table ++ " SET "
        ++ String.intercalate ", " (data.map (fun kv => kv.1 ++ " = ?"))
        ++ " WHERE " ++ "id" ++ " = ?", data.map Prod.snd ++ [JsVal.str ident]⟩ <;>
      simp [String.append_assoc]
  · unfold deleteHandler resolveFilterColumn
    rw [if_neg (by simp [hm]), hguid]
    simp only [Bool.false_eq_true, if_false]
    cases db ⟨"DELETE FROM " ++ table ++ " WHERE " ++ "id" ++ " = ?",
        [JsVal.str ident]⟩ <;>
      simp [String.append_assoc]

/-- Witness for filter_column_defaults_to_id at identifier 7 on table
users with the key query parameter email. -/
theorem filter_column_defaults_to_id_witness :
    validateGUID "7" = false ∧
    disabledTables.contains "users" = false ∧
    (putHandler .sqlite (fun _ => .ok ⟨some 1, none, none, none⟩) "users" "7"
        [("name", JsVal.str "x")] (some "email")).2
      = [⟨"UPDATE " ++ "users" ++ " SET "
            ++ String.intercalate ", " ([("name", JsVal.str "x")].map (fun kv => kv.1 ++ " = ?"))
            ++ " WHERE id = ?",
          [("name", JsVal.str "x")].map Prod.snd ++ [JsVal.str "7"]⟩] :=
  ⟨by decide, by decide,
    (filter_column_defaults_to_id .sqlite (fun _ => .ok ⟨some 1, none, none, none⟩)
      "users" "7" [("name", JsVal.str "x")] (some "email") none
      (by decide) (by decide)).2.1⟩

/-- Claim C6: the collection-GET query is SELECT * FROM table with the
caller's where text appended verbatim after WHERE and the order text
verbatim after ORDER BY whenever those parameters are supplied non-empty
(the source's truthiness test), and LIMIT/OFFSET appended as question-mark
placeholders whose integer-parsed values are the only bound parameters —
no part of the where or order text is ever bound. -/
theorem collection_query_characterization (table : String)
    (w o l off : Option String) :
    buildCollectionQuery table w o l off
      = ⟨"SELECT * FROM " ++ table
            ++ (if jsTruthyStr w then " WHERE " ++ w.getD "" else "")
            ++ (if jsTruthyStr o then " ORDER BY " ++ o.getD "" else "")
            ++ (if jsTruthyStr l then " LIMIT ?" else "")
            ++ (if jsTruthyStr off then " OFFSET ?" else ""),
          (if jsTruthyStr l then [toJsNum (jsParseInt (l.getD ""))] else [])
            ++ (if jsTruthyStr off then [toJsNum (jsParseInt (off.getD ""))] else [])⟩ := by
  unfold buildCollectionQuery
  by_cases hw : jsTruthyStr w <;> by_cases ho : jsTruthyStr o <;>
    by_cases hl : jsTruthyStr l <;> by_cases hoff : jsTruthyStr off <;>
      simp [hw, ho, hl, hoff, String.append_assoc]

/-- Theorem for claim C7 (code_bug), evaluating the shipped router at the
documented key-issuance paths: the generate-api-key registrations are
commented out, so no route pattern carries that literal; a GET or POST to
/generate-api-key instead dispatches to the gated table routes, where a
keyless request is rejected 401 by the auth gate — not answered 201 with a
fresh key.  The handler itself, were it reachable, would default the scope
to read and answer 201 with the key and scope as documented. -/
theorem generate_api_key_not_mounted :
    dispatchRoute .get ["generate-api-key"]
        = some ⟨.get, [.param "table"], "read"⟩ ∧
    dispatchRoute .post ["generate-api-key"]
        = some ⟨.post, [.param "table"], "write"⟩ ∧
    routeTable.filter (fun r => r.pattern == [PathSeg.lit "generate-api-key"]) = [] ∧
    validateApiKey [] none (.ok none) = .reject 401 "API key is missing" ∧
    generateAPIKey "3f2c8a9e" none
        = (⟨201, "3f2c8a9e", "read"⟩,
            ⟨"INSERT INTO api_keys (api_key, scopes) VALUES (?, ?)",
              [JsVal.str "3f2c8a9e", JsVal.str "read"]⟩) := by
  refine ⟨rfl, rfl, rfl, rfl, rfl⟩

/-- Counterexample to claim C8 as stated: on the SQLite backend a PUT that
matches zero rows yields result.changes = 0, the JavaScript coalescing
changes || affectedRows turns 0 into undefined, and the serialized
response carries no changes field at all — not a changes field equal
to 0. -/
theorem put_zero_changes_field_dropped :
    (putHandler .sqlite (fun _ => .ok ⟨some 0, none, some 5, none⟩) "users" "9"
        [("name", JsVal.str "x")] none).1
      = ⟨200, none, some "Item updated successfully", none, none⟩ ∧
    (putHandler .sqlite (fun _ => .ok ⟨some 0, none, some 5, none⟩) "users" "9"
        [("name", JsVal.str "x")] none).1.changes ≠ some 0 := by
  refine ⟨rfl, by decide⟩

/-- Claim C8 (amended: the zero-row PUT is a 200 success and never an
error, but the changes field reads 0 only on the MySQL backend; on SQLite
the changes-or-affectedRows coalescing maps 0 to undefined and the field
is omitted from the body). -/
theorem put_zero_rows_success (table ident : String)
    (data : List (String × JsVal))
    (htable : disabledTables.contains table = false) :
    (putHandler .mysql (fun _ => .ok ⟨none, some 0, none, none⟩)
        table ident data none).1
      = ⟨200, none, some "Item updated successfully", some 0, none⟩ ∧
    (putHandler .sqlite (fun _ => .ok ⟨some 0, none, some 5, none⟩)
        table ident data none).1
      = ⟨200, none, some "Item updated successfully", none, none⟩ := by
  have hm : table ∉ disabledTables := by simpa using htable
  constructor <;>
    · unfold putHandler
      rw [if_neg (by simp [hm])]
      rfl

/-- Witness for put_zero_rows_success on the table users. -/
theorem put_zero_rows_success_witness :
    disabledTables.contains "users" = false ∧
    (putHandler .sqlite (fun _ => .ok ⟨some 0, none, some 5, none⟩)
        "users" "9" [("name", JsVal.str "x")] none).1
      = ⟨200, none, some "Item updated successfully", none, none⟩ :=
  ⟨by decide,
    (put_zero_rows_success "users" "9" [("name", JsVal.str "x")] (by decide)).2⟩

lemma hexVal_version_chars (c : Char)
    (hc : (c == '1' || c == '2' || c == '3' || c == '4' || c == '5') = true) :
    (hexVal c = some 1 ∨ hexVal c = some 4) ↔ (c = '1' ∨ c = '4') := by
  simp only [Bool.or_eq_true, beq_iff_eq] at hc
  rcases hc with (((rfl | rfl) | rfl) | rfl) | rfl <;> decide

lemma charClass_agree (i : Nat) (c : Char) (h14 : i ≠ 14) (h19 : i ≠ 19) :
    uuidCharClass i c = layoutCharClass i c := by
  unfold uuidCharClass layoutCharClass
  have e14 : (i == 14) = false := by simpa using h14
  have e19 : (i == 19) = false := by simpa using h19
  by_cases hh : (i == 8 || i == 13 || i == 18 || i == 23) = true
  · rw [if_pos hh, if_pos hh]
  · rw [if_neg hh, if_neg hh, if_neg (by simp [e14]), if_neg (by simp [e19])]

lemma uuidCharClass_14_eq (c : Char) :
    uuidCharClass 14 c
      = (c == '1' || c == '2' || c == '3' || c == '4' || c == '5') := rfl

lemma uuidCharClass_19_eq (c : Char) :
    uuidCharClass 19 c
      = (c == '8' || c == '9' || c == 'a' || c == 'b' || c == 'A' || c == 'B') := rfl

lemma layoutCharClass_14_eq (c : Char) : layoutCharClass 14 c = isHexDigit c := rfl

lemma layoutCharClass_19_eq (c : Char) : layoutCharClass 19 c = isHexDigit c := rfl

lemma version_char_hex (c : Char) (h : c = '1' ∨ c = '4') : isHexDigit c = true := by
  rcases h with rfl | rfl <;> rfl

lemma variant_char_hex (c : Char)
    (h : ((((c = '8' ∨ c = '9') ∨ c = 'a') ∨ c = 'b') ∨ c = 'A') ∨ c = 'B') :
    isHexDigit c = true := by
  rcases h with ((((rfl | rfl) | rfl) | rfl) | rfl) | rfl <;> rfl

/-- Counterexample to claim C4 as stated: the string below is in canonical
36-character hyphenated hexadecimal layout with version nibble 4, so the
claim selects the GUID path for it, yet validateGUID rejects it — the uuid
package's validator additionally requires the variant nibble at position
19 to be 8, 9, a or b. -/
theorem guid_path_variant_counterexample :
    specSelectsGuidPath "00000000-0000-4000-0000-000000000000" = true ∧
    validateGUID "00000000-0000-4000-0000-000000000000" = false := by
  constructor <;> decide

/-- Claim C4 (amended: the GUID path additionally requires the RFC variant
nibble): validateGUID accepts a string exactly when it is in canonical
36-character hyphenated hexadecimal layout, its version nibble is 1 or 4,
and its variant nibble at position 19 is 8, 9, a or b (case-insensitively);
in particular versions 2, 3 and 5 and malformed strings never take the
GUID path. -/
theorem validateGUID_characterization (s : String) :
    validateGUID s = (specSelectsGuidPath s && variantNibbleOk s) := by
  by_cases hnil : s = nilUUIDStr
  · subst hnil; decide
  · have hbeq : (s == nilUUIDStr) = false := by simpa using hnil
    rw [Bool.eq_iff_iff]
    unfold validateGUID uuidValidate specSelectsGuidPath canonicalUUIDLayout
      variantNibbleOk getUUIDVersion
    simp only [hbeq, Bool.or_false, Bool.and_eq_true, Bool.or_eq_true,
      beq_iff_eq, List.all_eq_true, List.mem_range]
    constructor
    · rintro ⟨⟨hlen, hall⟩, hver⟩
      have hc14 := hall 14 (by omega)
      rw [uuidCharClass_14_eq] at hc14
      have h14 : s.data.getD 14 ' ' = '1' ∨ s.data.getD 14 ' ' = '4' :=
        (hexVal_version_chars _ hc14).mp hver
      have h19b := hall 19 (by omega)
      rw [uuidCharClass_19_eq] at h19b
      refine ⟨⟨⟨hlen, ?_⟩, h14⟩, ?_⟩
      · intro i hi
        by_cases hi14 : i = 14
        · subst hi14
          rw [layoutCharClass_14_eq]
          exact version_char_hex _ h14
        · by_cases hi19 : i = 19
          · subst hi19
            rw [layoutCharClass_19_eq]
            exact variant_char_hex _ (by simpa using h19b)
          · rw [← charClass_agree i _ hi14 hi19]
            exact hall i hi
      · simpa using h19b
    · rintro ⟨⟨⟨hlen, hall⟩, h14⟩, h19⟩
      refine ⟨⟨hlen, ?_⟩, ?_⟩
      · intro i hi
        by_cases hi14 : i = 14
        · subst hi14
          rw [uuidCharClass_14_eq]
          rcases h14 with h | h <;> rw [h] <;> rfl
        · by_cases hi19 : i = 19
          · subst hi19
            rw [uuidCharClass_19_eq]
            simpa using h19
          · rw [charClass_agree i _ hi14 hi19]
            exact hall i hi
      · rcases h14 with h | h
        · rw [h]
          exact Or.inl (by decide)
        · rw [h]
          exact Or.inr (by decide)

end ExpressApiGen
